import Mathlib

/-!
# Shallow embedding of the TWIN-HEALTH chat classification pipeline

Embeds `chat/views.py` (the `get_llm_classification` client boundary and the
`chat_api` view) and the persistent data model of `chat/models.py` /
`chat/migrations/0001_initial.py`.

Modelling conventions:
* The `Conversation` table has a unique, indexed `session_id`, so the store of
  conversations is embedded as a partial map `String → Option (List Turn)`
  from session id to history.  `ClassificationResult` rows are kept as a list
  in insertion order.
* Python strings use `.strip()` / `.lower()`; these are embedded as
  `pyStrip` / `pyLower` over the character list (ASCII-faithful).
* The external LLM backend is nondeterministic; one call's outcome is passed
  to `chat_api` as an explicit `LLMCall` oracle value.
* Persistence failures (Django ORM `save`/`create` raising) are modelled by a
  `FailPoint` parameter naming the first persistence call that raises, caught
  by the view's blanket `except Exception` handler.
* The repository imports `chat/llm_schemas.py` and `chat/knowledge_base.py`,
  which are not part of the provided sources; the Pydantic schema validation
  and the `PYTHON_ESCALATION_MESSAGES` table are modelled from the spec where
  marked.  The enum string values themselves (`LAB`, `TWIN_APPOINTMENT`,
  `OTHERS`, `classified`, `escalate`, `no_response`) are pinned by
  `chat/migrations/0001_initial.py`, which is part of the sources.
-/

namespace TwinHealth

/-- Python `str.strip()` (no arguments): drop leading and trailing
whitespace characters. -/
def pyStrip (s : String) : String :=
  ⟨((s.data.dropWhile Char.isWhitespace).reverse.dropWhile Char.isWhitespace).reverse⟩

/-- Python `str.lower()` (ASCII letters). -/
def pyLower (s : String) : String :=
  ⟨s.data.map Char.toLower⟩

/-- One entry of `Conversation.history`: the view appends exactly
`dict` literals of shape `\x7b'role': ..., 'content': ...\x7d`
(views.py lines 166 and 204), so a history entry has exactly these two keys. -/
structure Turn where
  role : String
  content : String
deriving Repr, DecidableEq

/-- One row of the `ClassificationResult` model (models.py lines 57-93):
foreign key to the conversation (represented by its `session_id`), `topic`,
`escalation_status` and `response_message`.  The `timestamp` column is
auto-set and not relevant to any claim. -/
structure ClassificationResult where
  conversation_id : String
  topic : String
  escalation_status : String
  response_message : String
deriving Repr, DecidableEq

/-- The persistent database state: the `Conversation` table (a partial map
because `session_id` is unique) and the `ClassificationResult` table in
insertion order. -/
structure DB where
  conversations : String → Option (List Turn)
  results : List ClassificationResult

/-- The empty database. -/
def DB.empty : DB := ⟨fun _ => none, []⟩

/-- `TopicCategory` enum; string values pinned by the migration's
`TOPIC_CHOICES`. -/
inductive TopicCategory where
  | LAB
  | TWIN_APPOINTMENT
  | OTHERS
deriving Repr, DecidableEq

/-- `.value` of the `TopicCategory` `str` enum. -/
def TopicCategory.value : TopicCategory → String
  | .LAB => "LAB"
  | .TWIN_APPOINTMENT => "TWIN_APPOINTMENT"
  | .OTHERS => "OTHERS"

/-- `Status` enum; string values pinned by the migration's
`ESCALATION_STATUS_CHOICES`. -/
inductive Status where
  | CLASSIFIED
  | ESCALATE
  | NO_RESPONSE
deriving Repr, DecidableEq

/-- `.value` of the `Status` `str` enum. -/
def Status.value : Status → String
  | .CLASSIFIED => "classified"
  | .ESCALATE => "escalate"
  | .NO_RESPONSE => "no_response"

/-- The validated `ClassificationOutput` Pydantic model of
`chat/llm_schemas.py` (file absent from the sources; field list taken from
its uses in views.py: `topic`, `status`, `response_message`, `confidence`,
`justification`).  `confidence` is embedded as a rational. -/
structure ClassificationOutput where
  topic : TopicCategory
  status : Status
  response_message : String
  confidence : ℚ
  justification : String
deriving Repr, DecidableEq

/-- The five fields of a successfully JSON-parsed backend reply, before
schema validation. -/
structure RawOutput where
  topic : String
  status : String
  response_message : String
  confidence : ℚ
  justification : String
deriving Repr, DecidableEq

/-- Parse a topic string into the closed `TopicCategory` set. -/
def parseTopic : String → Option TopicCategory
  | "LAB" => some .LAB
  | "TWIN_APPOINTMENT" => some .TWIN_APPOINTMENT
  | "OTHERS" => some .OTHERS
  | _ => none

/-- Parse a status string into the closed `Status` set. -/
def parseStatus : String → Option Status
  | "classified" => some .CLASSIFIED
  | "escalate" => some .ESCALATE
  | "no_response" => some .NO_RESPONSE
  | _ => none

/-- Modelled from the spec: the schema validation performed by
`ClassificationOutput.model_validate_json` against `chat/llm_schemas.py`
(file absent from the sources).  Per the spec, validation checks closed-set
membership for `topic`/`status` and the numeric range `[0.0, 1.0]` for
`confidence`; failure raises `ValidationError`, here `none`. -/
def validateOutput (r : RawOutput) : Option ClassificationOutput :=
  match parseTopic r.topic, parseStatus r.status with
  | some t, some s =>
    if 0 ≤ r.confidence ∧ r.confidence ≤ 1 then
      some ⟨t, s, r.response_message, r.confidence, r.justification⟩
    else
      none
  | _, _ => none

/-- Modelled from the spec: `PYTHON_ESCALATION_MESSAGES["system_error"]['message']`
from `chat/llm_schemas.py` (file absent from the sources) — "a fixed
human-readable apology/escalation message"; the exact wording is not in the
sources, only that it is one fixed string. -/
def systemErrorMessage : String :=
  "We are sorry, a system error occurred. Your request has been escalated to a human specialist."

/-- Modelled from the spec: `PYTHON_ESCALATION_MESSAGES["generic_ack"]['status']`
is `'no_response'` (also asserted by the repository's own test
`test_chat_api_generic_ack` and the inline comment at views.py line 178). -/
def genericAckStatus : String := "no_response"

/-- What one invocation of the configured backend produced, after
`json.loads`-level parsing: empty/falsy text, unparseable text, or a parsed
five-field object awaiting schema validation. -/
inductive BackendText where
  | empty
  | unparseable
  | parsed (r : RawOutput)
deriving Repr, DecidableEq

/-- Outcome of one LLM call attempt, passed as an oracle:
`transportError` is any SDK/transport exception (caught by the blanket
`except Exception`), `configError` the `ValueError` for an unsupported
provider or missing client (views.py line 107), `response` a returned text. -/
inductive LLMCall where
  | transportError
  | configError
  | response (t : BackendText)
deriving Repr, DecidableEq

/-- The fallback decision built in the `except (ValidationError,
json.JSONDecodeError, ValueError)` arm (views.py lines 116-125). -/
def parseConfigFallback : ClassificationOutput :=
  ⟨.OTHERS, .ESCALATE, systemErrorMessage, 0,
    "System error fallback due to output parse/config failure."⟩

/-- The fallback decision built in the `except Exception` arm
(views.py lines 126-135). -/
def apiFallback : ClassificationOutput :=
  ⟨.OTHERS, .ESCALATE, systemErrorMessage, 0,
    "System error fallback due to API/network error."⟩

/-- `get_llm_classification` (views.py lines 40-135): build the prompt,
invoke the configured backend, parse and validate its output, and convert
every failure into a fully-populated `system_error` fallback decision.
The backend outcome is the explicit `call` oracle. -/
def get_llm_classification (call : LLMCall) : ClassificationOutput :=
  match call with
  | .transportError => apiFallback
  | .configError => parseConfigFallback
  | .response .empty => parseConfigFallback
  | .response .unparseable => parseConfigFallback
  | .response (.parsed r) =>
    match validateOutput r with
    | some out => out
    | none => parseConfigFallback

/-- Does this call outcome fail to produce a schema-valid decision?
(Every case except a parsed response that validates.) -/
def llmCallFails : LLMCall → Bool
  | .response (.parsed r) => (validateOutput r).isNone
  | _ => true

/-- `Conversation.objects.get_or_create(session_id=..., defaults=...)`
(views.py lines 162-165): returns the updated table, the row's history and
the `created` flag; a newly created row (with the default empty history) is
committed immediately. -/
def getOrCreate (db : DB) (sid : String) : DB × List Turn × Bool :=
  match db.conversations sid with
  | some h => (db, h, false)
  | none =>
    ({ db with conversations := fun s => if s = sid then some [] else db.conversations s },
     [], true)

/-- `conversation.save()` after mutating `conversation.history` in memory:
persists history `h` for session `sid`. -/
def saveConv (db : DB) (sid : String) (h : List Turn) : DB :=
  { db with conversations := fun s => if s = sid then some h else db.conversations s }

/-- The append pattern the pipeline uses for every history write
(views.py lines 162-168 and 204-205): look the session up (creating it when
absent), append one turn to its history, save. -/
def appendTurn (db : DB) (sid : String) (t : Turn) : DB :=
  let gc := getOrCreate db sid
  saveConv gc.1 sid (gc.2.1 ++ [t])

/-- The request body as seen after `json.loads`: either malformed JSON, or a
parsed object from which `message` and `session_id` are read with
`data.get`. -/
inductive RequestBody where
  | malformed
  | fields (message : Option String) (session_id : Option String)
deriving Repr, DecidableEq

/-- Which persistence call (if any) raises during this cycle; the view's
blanket `except Exception` turns it into a 500 response.  `atUserSave` is
the `conversation.save()` at line 168, `atAckAuditWrite` the
`ClassificationResult.objects.create` at line 182, `atAssistantSave` the
`conversation.save()` at line 205, `atAuditWrite` the
`ClassificationResult.objects.create` at line 208. -/
inductive FailPoint where
  | noFail
  | atUserSave
  | atAckAuditWrite
  | atAssistantSave
  | atAuditWrite
deriving Repr, DecidableEq

/-- The JSON (or error) response returned to the HTTP caller; JSON objects
are key/value lists of strings in construction order. -/
inductive ApiResponse where
  | json (fields : List (String × String))
  | error (msg : String) (code : Nat)
deriving Repr, DecidableEq

/-- Observable side-effect events of one cycle, in the order they happen;
used to state before/after (temporal) properties. -/
inductive Event where
  | userTurnSaved (sid : String) (t : Turn)
  | shortCircuitCheck (isAck isFirst : Bool)
  | llmInvoked (history_str : String)
  | assistantTurnSaved (sid : String) (t : Turn)
  | auditWritten (r : ClassificationResult)
deriving Repr, DecidableEq

/-- Result of one `chat_api` cycle: the new database, the HTTP response and
the ordered event trace. -/
structure ApiResult where
  db : DB
  response : ApiResponse
  events : List Event

/-- The generic-acknowledgement list of views.py line 171. -/
def ACKS : List String := ["ok", "okay", "thanks"]

/-- The JSON object returned by the short-circuit branch
(views.py lines 176-180): note it has no `session_id` key. -/
def ackJson : List (String × String) :=
  [("topic", "OTHERS"), ("status", genericAckStatus), ("response", "")]

/-- `session_id = data.get('session_id')` followed by
`if not session_id: session_id = str(uuid.uuid4())` — absent or empty
(falsy) ids are replaced by a fresh UUID, passed in as `fresh`. -/
def resolveSid (sidOpt : Option String) (fresh : String) : String :=
  match sidOpt with
  | some s => if s = "" then fresh else s
  | none => fresh

/-- `"\n".join(f"\x7bm['role']\x7d: \x7bm['content']\x7d" for m in history)`
(views.py line 191). -/
def historyStr (h : List Turn) : String :=
  String.intercalate "\n" (h.map fun m => m.role ++ ": " ++ m.content)

/-- `chat_api` (views.py lines 148-228) for a POST request.  `body` is the
parsed request body, `fresh` the UUID generated when no session id is
supplied, `llm` the oracle outcome of the (at most one) backend call, and
`fail` the persistence call that raises, if any. -/
def chat_api (db : DB) (body : RequestBody) (fresh : String)
    (llm : LLMCall) (fail : FailPoint) : ApiResult :=
  match body with
  | .malformed => ⟨db, .error "Invalid JSON in request body" 400, []⟩
  | .fields message session_id =>
    let user_message := pyStrip (message.getD "")
    let sid := resolveSid session_id fresh
    let gc := getOrCreate db sid
    let db1 := gc.1
    let hist1 := gc.2.1 ++ [Turn.mk "user" user_message]
    if fail = .atUserSave then
      ⟨db1, .error "An internal server error occurred" 500, []⟩
    else
      let db2 := saveConv db1 sid hist1
      let is_generic_ack := ACKS.contains (pyLower user_message)
      let is_first_message := hist1.length == 1
      let evs0 := [Event.userTurnSaved sid ⟨"user", user_message⟩,
                   Event.shortCircuitCheck is_generic_ack is_first_message]
      if is_generic_ack && is_first_message then
        if fail = .atAckAuditWrite then
          ⟨db2, .error "An internal server error occurred" 500, evs0⟩
        else
          let record : ClassificationResult :=
            ⟨sid, "OTHERS", genericAckStatus, "NO_RESPONSE_ACK"⟩
          ⟨{ db2 with results := db2.results ++ [record] },
           .json ackJson,
           evs0 ++ [Event.auditWritten record]⟩
      else
        let llm_result := get_llm_classification llm
        let response_text := llm_result.response_message
        let topic_str := llm_result.topic.value
        let status_str := llm_result.status.value
        let hist2 := hist1 ++ [Turn.mk "assistant" response_text]
        let evs1 := evs0 ++ [Event.llmInvoked (historyStr hist1)]
        if fail = .atAssistantSave then
          ⟨db2, .error "An internal server error occurred" 500, evs1⟩
        else
          let db3 := saveConv db2 sid hist2
          let evs2 := evs1 ++ [Event.assistantTurnSaved sid ⟨"assistant", response_text⟩]
          if fail = .atAuditWrite then
            ⟨db3, .error "An internal server error occurred" 500, evs2⟩
          else
            let record : ClassificationResult :=
              ⟨sid, topic_str, status_str, response_text⟩
            ⟨{ db3 with results := db3.results ++ [record] },
             .json [("topic", topic_str), ("status", status_str),
                    ("session_id", sid), ("response", response_text)],
             evs2 ++ [Event.auditWritten record]⟩

/-- The stored history of a session before a cycle touches it: the persisted
history, or `[]` when the session row does not exist yet. -/
def priorHistory (db : DB) (sid : String) : List Turn :=
  (db.conversations sid).getD []

/-- Number of user-role turns in the stored history of a session. -/
def userTurnCount (db : DB) (sid : String) : Nat :=
  ((priorHistory db sid).filter fun t => t.role == "user").length

/-- Number of `ClassificationResult` rows for a session. -/
def resultCount (db : DB) (sid : String) : Nat :=
  (db.results.filter fun r => r.conversation_id == sid).length

/-- Did the trace invoke the Classification Client? -/
def invokedLLM (evs : List Event) : Bool :=
  evs.any fun e => match e with | .llmInvoked _ => true | _ => false

/-- The keys of a JSON response, in order (`[]` for an error response). -/
def responseKeys : ApiResponse → List String
  | .json fields => fields.map Prod.fst
  | .error _ _ => []

section StoreLemmas

theorem saveConv_conversations (db : DB) (sid : String) (h : List Turn) (s : String) :
    (saveConv db sid h).conversations s = if s = sid then some h else db.conversations s := rfl

theorem saveConv_results (db : DB) (sid : String) (h : List Turn) :
    (saveConv db sid h).results = db.results := rfl

theorem getOrCreate_hist (db : DB) (sid : String) :
    (getOrCreate db sid).2.1 = priorHistory db sid := by
  unfold getOrCreate priorHistory
  cases hc : db.conversations sid <;> simp [hc]

theorem getOrCreate_conversations (db : DB) (sid s : String) :
    (getOrCreate db sid).1.conversations s =
      if s = sid then some (priorHistory db sid) else db.conversations s := by
  unfold getOrCreate priorHistory
  cases hc : db.conversations sid with
  | none => simp [hc]
  | some h =>
    simp only [hc, Option.getD_some]
    by_cases hs : s = sid
    · subst hs; simp [hc]
    · simp [hs]

theorem getOrCreate_results (db : DB) (sid : String) :
    (getOrCreate db sid).1.results = db.results := by
  unfold getOrCreate
  cases hc : db.conversations sid <;> simp [hc]

theorem append_singleton_length_beq (l : List Turn) (t : Turn) :
    ((l ++ [t]).length == 1) = l.isEmpty := by
  cases l with
  | nil => rfl
  | cons a l => rw [List.cons_append, List.length_cons, List.length_append]; rfl

end StoreLemmas

section BranchLemmas

/-- Malformed request body: 400 error, nothing touched. -/
theorem chat_api_malformed (db : DB) (fresh : String) (llm : LLMCall) (fail : FailPoint) :
    chat_api db .malformed fresh llm fail =
      ⟨db, .error "Invalid JSON in request body" 400, []⟩ := rfl

/-- The user-turn `save` raises: 500 error, only the `get_or_create` row
creation (if any) is persisted, no events. -/
theorem chat_api_failUserSave (db : DB) (m so : Option String) (fresh : String)
    (llm : LLMCall) (sid : String) (hsid : sid = resolveSid so fresh) :
    (chat_api db (.fields m so) fresh llm .atUserSave).response
        = .error "An internal server error occurred" 500 ∧
    (chat_api db (.fields m so) fresh llm .atUserSave).events = [] ∧
    (chat_api db (.fields m so) fresh llm .atUserSave).db.results = db.results ∧
    ∀ s, (chat_api db (.fields m so) fresh llm .atUserSave).db.conversations s =
      if s = sid then some (priorHistory db sid) else db.conversations s := by
  subst hsid
  refine ⟨rfl, rfl, ?_, ?_⟩
  · simp only [chat_api, if_pos rfl]
    exact getOrCreate_results db _
  · intro s
    simp only [chat_api, if_pos rfl]
    exact getOrCreate_conversations db _ s

/-- Short-circuit branch, audit write succeeds: generic-ack JSON response,
one `NO_RESPONSE_ACK` audit row, history is just the user turn. -/
theorem chat_api_sc (db : DB) (m so : Option String) (fresh : String) (llm : LLMCall)
    (fail : FailPoint) (um sid : String)
    (hum : um = pyStrip (m.getD "")) (hsid : sid = resolveSid so fresh)
    (hf1 : fail ≠ .atUserSave) (hf2 : fail ≠ .atAckAuditWrite)
    (hack : ACKS.contains (pyLower um) = true)
    (hfirst : priorHistory db sid = []) :
    (chat_api db (.fields m so) fresh llm fail).response = .json ackJson ∧
    (chat_api db (.fields m so) fresh llm fail).events =
      [Event.userTurnSaved sid ⟨"user", um⟩,
       Event.shortCircuitCheck true true,
       Event.auditWritten ⟨sid, "OTHERS", genericAckStatus, "NO_RESPONSE_ACK"⟩] ∧
    (chat_api db (.fields m so) fresh llm fail).db.results =
      db.results ++ [⟨sid, "OTHERS", genericAckStatus, "NO_RESPONSE_ACK"⟩] ∧
    ∀ s, (chat_api db (.fields m so) fresh llm fail).db.conversations s =
      if s = sid then some [⟨"user", um⟩] else db.conversations s := by
  subst hum hsid
  have hh : (getOrCreate db (resolveSid so fresh)).2.1 = [] :=
    (getOrCreate_hist db _).trans hfirst
  simp only [chat_api, if_neg hf1, hh, hack, List.nil_append, List.length_cons,
    List.length_nil, Nat.zero_add, beq_self_eq_true, Bool.and_self, if_pos,
    if_neg hf2, ite_true]
  refine ⟨by trivial, by trivial, ?_, ?_⟩
  · rw [saveConv_results, getOrCreate_results]
  · intro s
    rw [saveConv_conversations, getOrCreate_conversations]
    by_cases hs : s = resolveSid so fresh <;> simp [hs]

/-- Short-circuit branch but the audit write raises: 500 error, the user
turn stays persisted, no audit row. -/
theorem chat_api_sc_failAudit (db : DB) (m so : Option String) (fresh : String)
    (llm : LLMCall) (um sid : String)
    (hum : um = pyStrip (m.getD "")) (hsid : sid = resolveSid so fresh)
    (hack : ACKS.contains (pyLower um) = true)
    (hfirst : priorHistory db sid = []) :
    (chat_api db (.fields m so) fresh llm .atAckAuditWrite).response
        = .error "An internal server error occurred" 500 ∧
    (chat_api db (.fields m so) fresh llm .atAckAuditWrite).events =
      [Event.userTurnSaved sid ⟨"user", um⟩, Event.shortCircuitCheck true true] ∧
    (chat_api db (.fields m so) fresh llm .atAckAuditWrite).db.results = db.results ∧
    ∀ s, (chat_api db (.fields m so) fresh llm .atAckAuditWrite).db.conversations s =
      if s = sid then some [⟨"user", um⟩] else db.conversations s := by
  subst hum hsid
  have hh : (getOrCreate db (resolveSid so fresh)).2.1 = [] :=
    (getOrCreate_hist db _).trans hfirst
  simp only [chat_api, hh, hack, List.nil_append, List.length_cons, List.length_nil,
    Nat.zero_add, beq_self_eq_true, Bool.and_self, ite_true, ite_false,
    reduceCtorEq, if_neg, if_pos]
  refine ⟨by trivial, by trivial, ?_, ?_⟩
  · rw [saveConv_results, getOrCreate_results]
  · intro s
    rw [saveConv_conversations, getOrCreate_conversations]
    by_cases hs : s = resolveSid so fresh <;> simp [hs]

/-- The short-circuit guard of views.py line 174 evaluates to `false` unless
the message is a generic acknowledgement and the history is fresh. -/
theorem guard_eq_false (db : DB) (m so : Option String) (fresh : String)
    (hguard : ¬(ACKS.contains (pyLower (pyStrip (m.getD ""))) = true ∧
        priorHistory db (resolveSid so fresh) = [])) :
    (ACKS.contains (pyLower (pyStrip (m.getD ""))) &&
      (((getOrCreate db (resolveSid so fresh)).2.1 ++
        [Turn.mk "user" (pyStrip (m.getD ""))]).length == 1)) = false := by
  rw [getOrCreate_hist, append_singleton_length_beq]
  by_cases hc : ACKS.contains (pyLower (pyStrip (m.getD ""))) = true
  · cases hp : priorHistory db (resolveSid so fresh) with
    | nil => exact absurd ⟨hc, hp⟩ hguard
    | cons a l => rw [hc]; rfl
  · rw [Bool.eq_false_iff.mpr hc]; rfl

/-- Non-short-circuited branch with no persistence failure on its path:
the LLM decision is appended as an assistant turn (unconditionally), one
audit row is written with the decision's fields, and the four-field JSON
object is returned. -/
theorem chat_api_normal (db : DB) (m so : Option String) (fresh : String) (llm : LLMCall)
    (fail : FailPoint) (um sid : String) (prior : List Turn) (out : ClassificationOutput)
    (hum : um = pyStrip (m.getD "")) (hsid : sid = resolveSid so fresh)
    (hprior : prior = priorHistory db sid) (hout : out = get_llm_classification llm)
    (hf1 : fail ≠ .atUserSave) (hf3 : fail ≠ .atAssistantSave) (hf4 : fail ≠ .atAuditWrite)
    (hguard : ¬(ACKS.contains (pyLower um) = true ∧ priorHistory db sid = [])) :
    (chat_api db (.fields m so) fresh llm fail).response =
      .json [("topic", out.topic.value), ("status", out.status.value),
             ("session_id", sid), ("response", out.response_message)] ∧
    (chat_api db (.fields m so) fresh llm fail).events =
      [Event.userTurnSaved sid ⟨"user", um⟩,
       Event.shortCircuitCheck (ACKS.contains (pyLower um)) prior.isEmpty,
       Event.llmInvoked (historyStr (prior ++ [⟨"user", um⟩])),
       Event.assistantTurnSaved sid ⟨"assistant", out.response_message⟩,
       Event.auditWritten ⟨sid, out.topic.value, out.status.value, out.response_message⟩] ∧
    (chat_api db (.fields m so) fresh llm fail).db.results =
      db.results ++ [⟨sid, out.topic.value, out.status.value, out.response_message⟩] ∧
    ∀ s, (chat_api db (.fields m so) fresh llm fail).db.conversations s =
      if s = sid then some (prior ++ [⟨"user", um⟩, ⟨"assistant", out.response_message⟩])
      else db.conversations s := by
  subst hum hsid hprior hout
  have hg := guard_eq_false db m so fresh hguard
  rw [getOrCreate_hist, append_singleton_length_beq] at hg
  refine ⟨?_, ?_, ?_, ?_⟩
  · simp only [chat_api, getOrCreate_hist, append_singleton_length_beq, hg,
      Bool.false_eq_true, if_false, if_neg hf1, if_neg hf3, if_neg hf4]
  · simp only [chat_api, getOrCreate_hist, append_singleton_length_beq, hg,
      Bool.false_eq_true, if_false, if_neg hf1, if_neg hf3, if_neg hf4,
      List.cons_append, List.nil_append]
  · simp only [chat_api, getOrCreate_hist, append_singleton_length_beq, hg,
      Bool.false_eq_true, if_false, if_neg hf1, if_neg hf3, if_neg hf4,
      saveConv_results, getOrCreate_results]
  · intro s
    simp only [chat_api, getOrCreate_hist, append_singleton_length_beq, hg,
      Bool.false_eq_true, if_false, if_neg hf1, if_neg hf3, if_neg hf4,
      saveConv_conversations]
    by_cases hs : s = resolveSid so fresh
    · simp [hs]
    · simp only [if_neg hs, getOrCreate_conversations, if_neg hs]

/-- Non-short-circuited branch, the assistant-turn `save` raises: 500
error, the user turn stays persisted, no assistant turn, no audit row. -/
theorem chat_api_normal_failAssist (db : DB) (m so : Option String) (fresh : String)
    (llm : LLMCall) (um sid : String) (prior : List Turn)
    (hum : um = pyStrip (m.getD "")) (hsid : sid = resolveSid so fresh)
    (hprior : prior = priorHistory db sid)
    (hguard : ¬(ACKS.contains (pyLower um) = true ∧ priorHistory db sid = [])) :
    (chat_api db (.fields m so) fresh llm .atAssistantSave).response
        = .error "An internal server error occurred" 500 ∧
    (chat_api db (.fields m so) fresh llm .atAssistantSave).events =
      [Event.userTurnSaved sid ⟨"user", um⟩,
       Event.shortCircuitCheck (ACKS.contains (pyLower um)) prior.isEmpty,
       Event.llmInvoked (historyStr (prior ++ [⟨"user", um⟩]))] ∧
    (chat_api db (.fields m so) fresh llm .atAssistantSave).db.results = db.results ∧
    ∀ s, (chat_api db (.fields m so) fresh llm .atAssistantSave).db.conversations s =
      if s = sid then some (prior ++ [⟨"user", um⟩]) else db.conversations s := by
  subst hum hsid hprior
  have hg := guard_eq_false db m so fresh hguard
  rw [getOrCreate_hist, append_singleton_length_beq] at hg
  have hA : FailPoint.atAssistantSave ≠ FailPoint.atUserSave := by decide
  refine ⟨?_, ?_, ?_, ?_⟩
  · simp only [chat_api, getOrCreate_hist, append_singleton_length_beq, hg,
      Bool.false_eq_true, if_false, if_neg hA, if_pos rfl, if_true]
  · simp only [chat_api, getOrCreate_hist, append_singleton_length_beq, hg,
      Bool.false_eq_true, if_false, if_neg hA, if_pos rfl, if_true,
      List.cons_append, List.nil_append]
  · simp only [chat_api, getOrCreate_hist, append_singleton_length_beq, hg,
      Bool.false_eq_true, if_false, if_neg hA, if_pos rfl, if_true,
      saveConv_results, getOrCreate_results]
  · intro s
    simp only [chat_api, getOrCreate_hist, append_singleton_length_beq, hg,
      Bool.false_eq_true, if_false, if_neg hA, if_pos rfl, if_true, saveConv_conversations]
    by_cases hs : s = resolveSid so fresh
    · simp [hs]
    · simp only [if_neg hs, getOrCreate_conversations, if_neg hs]

/-- Non-short-circuited branch, the audit-row `create` raises: 500 error,
but both the user turn and the assistant turn are already persisted; no
audit row. -/
theorem chat_api_normal_failAudit (db : DB) (m so : Option String) (fresh : String)
    (llm : LLMCall) (um sid : String) (prior : List Turn) (out : ClassificationOutput)
    (hum : um = pyStrip (m.getD "")) (hsid : sid = resolveSid so fresh)
    (hprior : prior = priorHistory db sid) (hout : out = get_llm_classification llm)
    (hguard : ¬(ACKS.contains (pyLower um) = true ∧ priorHistory db sid = [])) :
    (chat_api db (.fields m so) fresh llm .atAuditWrite).response
        = .error "An internal server error occurred" 500 ∧
    (chat_api db (.fields m so) fresh llm .atAuditWrite).events =
      [Event.userTurnSaved sid ⟨"user", um⟩,
       Event.shortCircuitCheck (ACKS.contains (pyLower um)) prior.isEmpty,
       Event.llmInvoked (historyStr (prior ++ [⟨"user", um⟩])),
       Event.assistantTurnSaved sid ⟨"assistant", out.response_message⟩] ∧
    (chat_api db (.fields m so) fresh llm .atAuditWrite).db.results = db.results ∧
    ∀ s, (chat_api db (.fields m so) fresh llm .atAuditWrite).db.conversations s =
      if s = sid then some (prior ++ [⟨"user", um⟩, ⟨"assistant", out.response_message⟩])
      else db.conversations s := by
  subst hum hsid hprior hout
  have hg := guard_eq_false db m so fresh hguard
  rw [getOrCreate_hist, append_singleton_length_beq] at hg
  have hA : FailPoint.atAuditWrite ≠ FailPoint.atUserSave := by decide
  have hB : FailPoint.atAuditWrite ≠ FailPoint.atAssistantSave := by decide
  refine ⟨?_, ?_, ?_, ?_⟩
  · simp only [chat_api, getOrCreate_hist, append_singleton_length_beq, hg,
      Bool.false_eq_true, if_false, if_neg hA, if_neg hB, if_pos rfl, if_true]
  · simp only [chat_api, getOrCreate_hist, append_singleton_length_beq, hg,
      Bool.false_eq_true, if_false, if_neg hA, if_neg hB, if_pos rfl, if_true,
      List.cons_append, List.nil_append]
  · simp only [chat_api, getOrCreate_hist, append_singleton_length_beq, hg,
      Bool.false_eq_true, if_false, if_neg hA, if_neg hB, if_pos rfl, if_true,
      saveConv_results, getOrCreate_results]
  · intro s
    simp only [chat_api, getOrCreate_hist, append_singleton_length_beq, hg,
      Bool.false_eq_true, if_false, if_neg hA, if_neg hB, if_pos rfl, if_true,
      saveConv_conversations]
    by_cases hs : s = resolveSid so fresh
    · simp [hs]
    · simp only [if_neg hs, getOrCreate_conversations, if_neg hs]

end BranchLemmas

/-- The per-request inputs of one turn-processing cycle: parsed body,
generated UUID, backend-call outcome and persistence-failure point. -/
structure StepInput where
  body : RequestBody
  freshId : String
  llm : LLMCall
  fail : FailPoint

/-- Run a sequence of cycles against the store, threading the database. -/
def runSteps (db : DB) (steps : List StepInput) : DB :=
  steps.foldl (fun d s => (chat_api d s.body s.freshId s.llm s.fail).db) db

/-- A cycle input that is processed successfully: the body parses and no
persistence call raises. -/
def goodStep (s : StepInput) : Bool :=
  (match s.body with
   | .fields _ _ => true
   | .malformed => false) && (s.fail == FailPoint.noFail)

section CountLemmas

theorem resultCount_of_results_append (dbx db : DB) (r : ClassificationResult)
    (h : dbx.results = db.results ++ [r]) (sid : String) :
    resultCount dbx sid = resultCount db sid + (if r.conversation_id = sid then 1 else 0) := by
  unfold resultCount
  rw [h, List.filter_append, List.length_append]
  by_cases hr : r.conversation_id = sid
  · simp [hr]
  · have hb : (r.conversation_id == sid) = false := beq_eq_false_iff_ne.mpr hr
    simp [List.filter, hb, hr]

theorem resultCount_of_results_same (dbx db : DB) (h : dbx.results = db.results)
    (sid : String) : resultCount dbx sid = resultCount db sid := by
  unfold resultCount; rw [h]

theorem userTurnCount_of_conv (dbx db : DB) (rid : String) (hh : List Turn)
    (hconv : ∀ s, dbx.conversations s = if s = rid then some hh else db.conversations s)
    (sid : String) :
    userTurnCount dbx sid =
      if sid = rid then (hh.filter fun t => t.role == "user").length
      else userTurnCount db sid := by
  unfold userTurnCount priorHistory
  rw [hconv sid]
  by_cases hs : sid = rid <;> simp [hs]

theorem userFilter_append_user (l : List Turn) (c : String) :
    ((l ++ [Turn.mk "user" c]).filter fun t : Turn => t.role == "user").length
      = ((l.filter fun t : Turn => t.role == "user")).length + 1 := by
  rw [List.filter_append, List.length_append]; rfl

theorem userFilter_append_user_assistant (l : List Turn) (c1 c2 : String) :
    ((l ++ [Turn.mk "user" c1, Turn.mk "assistant" c2]).filter
        fun t : Turn => t.role == "user").length
      = ((l.filter fun t : Turn => t.role == "user")).length + 1 := by
  rw [List.filter_append, List.length_append]; rfl

end CountLemmas

theorem userTurnCount_def (db : DB) (sid : String) :
    userTurnCount db sid = ((priorHistory db sid).filter fun t : Turn => t.role == "user").length := rfl

/-- Over one arbitrary cycle, the audit-row count for any session grows by
at most as much as its user-turn count (stated additively). -/
theorem counts_step_le (db : DB) (body : RequestBody) (fresh : String)
    (llm : LLMCall) (fail : FailPoint) (sid : String) :
    resultCount (chat_api db body fresh llm fail).db sid + userTurnCount db sid ≤
      resultCount db sid + userTurnCount (chat_api db body fresh llm fail).db sid := by
  cases body with
  | malformed => rw [chat_api_malformed]
  | fields m so =>
    by_cases hguard : ACKS.contains (pyLower (pyStrip (m.getD ""))) = true ∧
        priorHistory db (resolveSid so fresh) = []
    · rcases hguard with ⟨hack, hfirst⟩
      cases fail with
      | atUserSave =>
        obtain ⟨-, -, hres, hconv⟩ := chat_api_failUserSave db m so fresh llm _ rfl
        rw [resultCount_of_results_same _ _ hres, userTurnCount_of_conv _ db _ _ hconv sid]
        by_cases hs : sid = resolveSid so fresh <;> simp [hs, userTurnCount_def]
      | atAckAuditWrite =>
        obtain ⟨-, -, hres, hconv⟩ :=
          chat_api_sc_failAudit db m so fresh llm _ _ rfl rfl hack hfirst
        rw [resultCount_of_results_same _ _ hres, userTurnCount_of_conv _ db _ _ hconv sid]
        by_cases hs : sid = resolveSid so fresh
        · subst hs
          have h0 : userTurnCount db (resolveSid so fresh) = 0 := by
            rw [userTurnCount_def, hfirst]; rfl
          simp [h0]
        · simp [hs]
      | noFail =>
        obtain ⟨-, -, hres, hconv⟩ :=
          chat_api_sc db m so fresh llm .noFail _ _ rfl rfl (by decide) (by decide) hack hfirst
        rw [resultCount_of_results_append _ _ _ hres, userTurnCount_of_conv _ db _ _ hconv sid]
        by_cases hs : sid = resolveSid so fresh
        · subst hs
          have h0 : userTurnCount db (resolveSid so fresh) = 0 := by
            rw [userTurnCount_def, hfirst]; rfl
          simp [h0]
        · simp [hs, Ne.symm hs]
      | atAssistantSave =>
        obtain ⟨-, -, hres, hconv⟩ :=
          chat_api_sc db m so fresh llm .atAssistantSave _ _ rfl rfl (by decide) (by decide) hack hfirst
        rw [resultCount_of_results_append _ _ _ hres, userTurnCount_of_conv _ db _ _ hconv sid]
        by_cases hs : sid = resolveSid so fresh
        · subst hs
          have h0 : userTurnCount db (resolveSid so fresh) = 0 := by
            rw [userTurnCount_def, hfirst]; rfl
          simp [h0]
        · simp [hs, Ne.symm hs]
      | atAuditWrite =>
        obtain ⟨-, -, hres, hconv⟩ :=
          chat_api_sc db m so fresh llm .atAuditWrite _ _ rfl rfl (by decide) (by decide) hack hfirst
        rw [resultCount_of_results_append _ _ _ hres, userTurnCount_of_conv _ db _ _ hconv sid]
        by_cases hs : sid = resolveSid so fresh
        · subst hs
          have h0 : userTurnCount db (resolveSid so fresh) = 0 := by
            rw [userTurnCount_def, hfirst]; rfl
          simp [h0]
        · simp [hs, Ne.symm hs]
    · cases fail with
      | atUserSave =>
        obtain ⟨-, -, hres, hconv⟩ := chat_api_failUserSave db m so fresh llm _ rfl
        rw [resultCount_of_results_same _ _ hres, userTurnCount_of_conv _ db _ _ hconv sid]
        by_cases hs : sid = resolveSid so fresh <;> simp [hs, userTurnCount_def]
      | atAssistantSave =>
        obtain ⟨-, -, hres, hconv⟩ :=
          chat_api_normal_failAssist db m so fresh llm _ _ _ rfl rfl rfl hguard
        rw [resultCount_of_results_same _ _ hres, userTurnCount_of_conv _ db _ _ hconv sid]
        by_cases hs : sid = resolveSid so fresh
        · subst hs
          rw [if_pos rfl, userFilter_append_user, ← userTurnCount_def]; omega
        · simp [hs]
      | atAuditWrite =>
        obtain ⟨-, -, hres, hconv⟩ :=
          chat_api_normal_failAudit db m so fresh llm _ _ _ _ rfl rfl rfl rfl hguard
        rw [resultCount_of_results_same _ _ hres, userTurnCount_of_conv _ db _ _ hconv sid]
        by_cases hs : sid = resolveSid so fresh
        · subst hs
          rw [if_pos rfl, userFilter_append_user_assistant, ← userTurnCount_def]; omega
        · simp [hs]
      | noFail =>
        obtain ⟨-, -, hres, hconv⟩ :=
          chat_api_normal db m so fresh llm .noFail _ _ _ _ rfl rfl rfl rfl
            (by decide) (by decide) (by decide) hguard
        rw [resultCount_of_results_append _ _ _ hres, userTurnCount_of_conv _ db _ _ hconv sid]
        by_cases hs : sid = resolveSid so fresh
        · subst hs
          rw [if_pos rfl, if_pos rfl, userFilter_append_user_assistant, ← userTurnCount_def]
          omega
        · simp [hs, Ne.symm hs]
      | atAckAuditWrite =>
        obtain ⟨-, -, hres, hconv⟩ :=
          chat_api_normal db m so fresh llm .atAckAuditWrite _ _ _ _ rfl rfl rfl rfl
            (by decide) (by decide) (by decide) hguard
        rw [resultCount_of_results_append _ _ _ hres, userTurnCount_of_conv _ db _ _ hconv sid]
        by_cases hs : sid = resolveSid so fresh
        · subst hs
          rw [if_pos rfl, if_pos rfl, userFilter_append_user_assistant, ← userTurnCount_def]
          omega
        · simp [hs, Ne.symm hs]

/-- Over one successfully processed cycle, the audit-row count and the
user-turn count of every session grow by the same amount (stated
additively): one each for the processed session, zero elsewhere. -/
theorem counts_step_eq (db : DB) (m so : Option String) (fresh : String)
    (llm : LLMCall) (sid : String) :
    resultCount (chat_api db (.fields m so) fresh llm .noFail).db sid + userTurnCount db sid =
      resultCount db sid + userTurnCount (chat_api db (.fields m so) fresh llm .noFail).db sid := by
  by_cases hguard : ACKS.contains (pyLower (pyStrip (m.getD ""))) = true ∧
      priorHistory db (resolveSid so fresh) = []
  · rcases hguard with ⟨hack, hfirst⟩
    obtain ⟨-, -, hres, hconv⟩ :=
      chat_api_sc db m so fresh llm .noFail _ _ rfl rfl (by decide) (by decide) hack hfirst
    rw [resultCount_of_results_append _ _ _ hres, userTurnCount_of_conv _ db _ _ hconv sid]
    by_cases hs : sid = resolveSid so fresh
    · subst hs
      have h0 : userTurnCount db (resolveSid so fresh) = 0 := by
        rw [userTurnCount_def, hfirst]; rfl
      simp [h0]
    · simp [hs, Ne.symm hs]
  · obtain ⟨-, -, hres, hconv⟩ :=
      chat_api_normal db m so fresh llm .noFail _ _ _ _ rfl rfl rfl rfl
        (by decide) (by decide) (by decide) hguard
    rw [resultCount_of_results_append _ _ _ hres, userTurnCount_of_conv _ db _ _ hconv sid]
    by_cases hs : sid = resolveSid so fresh
    · subst hs
      rw [if_pos rfl, if_pos rfl, userFilter_append_user_assistant, ← userTurnCount_def]
      omega
    · simp [hs, Ne.symm hs]

theorem runSteps_cons (db : DB) (s : StepInput) (rest : List StepInput) :
    runSteps db (s :: rest) = runSteps (chat_api db s.body s.freshId s.llm s.fail).db rest := rfl

/-- The count inequality is preserved along any sequence of cycles. -/
theorem counts_runSteps_le (steps : List StepInput) : ∀ (db : DB) (sid : String),
    resultCount db sid ≤ userTurnCount db sid →
    resultCount (runSteps db steps) sid ≤ userTurnCount (runSteps db steps) sid := by
  induction steps with
  | nil => intro db sid h; exact h
  | cons s rest ih =>
    intro db sid h
    have hstep := counts_step_le db s.body s.freshId s.llm s.fail sid
    rw [runSteps_cons]
    exact ih _ sid (by omega)

/-- The count equality is preserved along any sequence of successfully
processed cycles. -/
theorem counts_runSteps_eq (steps : List StepInput) : ∀ (db : DB) (sid : String),
    (∀ s ∈ steps, goodStep s = true) →
    resultCount db sid = userTurnCount db sid →
    resultCount (runSteps db steps) sid = userTurnCount (runSteps db steps) sid := by
  induction steps with
  | nil => intro db sid _ h; exact h
  | cons s rest ih =>
    intro db sid hgood h
    have hhead := hgood s (List.mem_cons_self s rest)
    obtain ⟨m, so, hbody, hfail⟩ : ∃ m so, s.body = .fields m so ∧ s.fail = .noFail := by
      unfold goodStep at hhead
      cases hb : s.body with
      | malformed => rw [hb] at hhead; simp at hhead
      | fields m so =>
        rw [hb] at hhead
        simp only [Bool.true_and, beq_iff_eq] at hhead
        exact ⟨m, so, rfl, hhead⟩
    have hstep := counts_step_eq db m so s.freshId s.llm sid
    rw [runSteps_cons, hbody, hfail]
    exact ih _ sid (fun x hx => hgood x (List.mem_cons_of_mem s hx)) (by omega)

/-- Append a list of turns to a session one at a time, with the pipeline's
lookup-or-create / append / save pattern. -/
def appendTurns (db : DB) (sid : String) (ts : List Turn) : DB :=
  ts.foldl (fun d t => appendTurn d sid t) db

theorem appendTurn_lookup (db : DB) (sid : String) (t : Turn) :
    (appendTurn db sid t).conversations sid = some (priorHistory db sid ++ [t]) := by
  unfold appendTurn
  rw [saveConv_conversations, if_pos rfl, getOrCreate_hist]

theorem appendTurn_other (db : DB) (sid s : String) (t : Turn) (hne : s ≠ sid) :
    (appendTurn db sid t).conversations s = db.conversations s := by
  unfold appendTurn
  rw [saveConv_conversations, if_neg hne, getOrCreate_conversations, if_neg hne]

theorem appendTurns_lookup (sid : String) : ∀ (ts : List Turn) (db : DB) (h0 : List Turn),
    db.conversations sid = some h0 →
    (appendTurns db sid ts).conversations sid = some (h0 ++ ts) := by
  intro ts
  induction ts with
  | nil => intro db h0 h; rw [List.append_nil]; exact h
  | cons t ts ih =>
    intro db h0 h
    have h1 : (appendTurn db sid t).conversations sid = some (h0 ++ [t]) := by
      rw [appendTurn_lookup]
      unfold priorHistory
      rw [h, Option.getD_some]
    have := ih (appendTurn db sid t) (h0 ++ [t]) h1
    rw [List.append_assoc, List.singleton_append] at this
    exact this

/-- Every history entry the pipeline ever writes has role "user" or
"assistant". -/
def rolesOK (db : DB) : Prop :=
  ∀ sid h, db.conversations sid = some h →
    ∀ t ∈ h, t.role = "user" ∨ t.role = "assistant"

theorem prior_roles_ok (db : DB) (rid : String) (hok : rolesOK db) :
    ∀ t ∈ priorHistory db rid, t.role = "user" ∨ t.role = "assistant" := by
  unfold priorHistory
  cases hc : db.conversations rid with
  | none => intro t ht; exact absurd ht (List.not_mem_nil t)
  | some h => exact hok rid h hc

theorem rolesOK_update (db dbx : DB) (rid : String) (hh : List Turn)
    (hconv : ∀ s, dbx.conversations s = if s = rid then some hh else db.conversations s)
    (hok : rolesOK db)
    (hh_ok : ∀ t ∈ hh, t.role = "user" ∨ t.role = "assistant") : rolesOK dbx := by
  intro sid h hsome t ht
  rw [hconv sid] at hsome
  by_cases hs : sid = rid
  · rw [if_pos hs] at hsome
    cases hsome
    exact hh_ok t ht
  · rw [if_neg hs] at hsome
    exact hok sid h hsome t ht

theorem roles_ok_append_user (l : List Turn) (c : String)
    (hl : ∀ t ∈ l, t.role = "user" ∨ t.role = "assistant") :
    ∀ t ∈ l ++ [Turn.mk "user" c], t.role = "user" ∨ t.role = "assistant" := by
  intro t ht
  rcases List.mem_append.mp ht with h | h
  · exact hl t h
  · rw [List.mem_singleton.mp h]; exact Or.inl rfl

theorem roles_ok_append_user_assistant (l : List Turn) (c1 c2 : String)
    (hl : ∀ t ∈ l, t.role = "user" ∨ t.role = "assistant") :
    ∀ t ∈ l ++ [Turn.mk "user" c1, Turn.mk "assistant" c2],
      t.role = "user" ∨ t.role = "assistant" := by
  intro t ht
  rcases List.mem_append.mp ht with h | h
  · exact hl t h
  · rcases List.mem_cons.mp h with h1 | h1
    · rw [h1]; exact Or.inl rfl
    · rw [List.mem_singleton.mp h1]; exact Or.inr rfl

/-- One cycle preserves the role invariant, whatever its inputs and
whatever fails. -/
theorem rolesOK_step (db : DB) (body : RequestBody) (fresh : String)
    (llm : LLMCall) (fail : FailPoint) (hok : rolesOK db) :
    rolesOK (chat_api db body fresh llm fail).db := by
  cases body with
  | malformed => rw [chat_api_malformed]; exact hok
  | fields m so =>
    by_cases hguard : ACKS.contains (pyLower (pyStrip (m.getD ""))) = true ∧
        priorHistory db (resolveSid so fresh) = []
    · rcases hguard with ⟨hack, hfirst⟩
      cases fail with
      | atUserSave =>
        obtain ⟨-, -, -, hconv⟩ := chat_api_failUserSave db m so fresh llm _ rfl
        exact rolesOK_update db _ _ _ hconv hok (prior_roles_ok db _ hok)
      | atAckAuditWrite =>
        obtain ⟨-, -, -, hconv⟩ :=
          chat_api_sc_failAudit db m so fresh llm _ _ rfl rfl hack hfirst
        exact rolesOK_update db _ _ _ hconv hok
          (by intro t ht; rw [List.mem_singleton.mp ht]; exact Or.inl rfl)
      | noFail =>
        obtain ⟨-, -, -, hconv⟩ :=
          chat_api_sc db m so fresh llm .noFail _ _ rfl rfl (by decide) (by decide) hack hfirst
        exact rolesOK_update db _ _ _ hconv hok
          (by intro t ht; rw [List.mem_singleton.mp ht]; exact Or.inl rfl)
      | atAssistantSave =>
        obtain ⟨-, -, -, hconv⟩ :=
          chat_api_sc db m so fresh llm .atAssistantSave _ _ rfl rfl (by decide) (by decide)
            hack hfirst
        exact rolesOK_update db _ _ _ hconv hok
          (by intro t ht; rw [List.mem_singleton.mp ht]; exact Or.inl rfl)
      | atAuditWrite =>
        obtain ⟨-, -, -, hconv⟩ :=
          chat_api_sc db m so fresh llm .atAuditWrite _ _ rfl rfl (by decide) (by decide)
            hack hfirst
        exact rolesOK_update db _ _ _ hconv hok
          (by intro t ht; rw [List.mem_singleton.mp ht]; exact Or.inl rfl)
    · cases fail with
      | atUserSave =>
        obtain ⟨-, -, -, hconv⟩ := chat_api_failUserSave db m so fresh llm _ rfl
        exact rolesOK_update db _ _ _ hconv hok (prior_roles_ok db _ hok)
      | atAssistantSave =>
        obtain ⟨-, -, -, hconv⟩ :=
          chat_api_normal_failAssist db m so fresh llm _ _ _ rfl rfl rfl hguard
        exact rolesOK_update db _ _ _ hconv hok
          (roles_ok_append_user _ _ (prior_roles_ok db _ hok))
      | atAuditWrite =>
        obtain ⟨-, -, -, hconv⟩ :=
          chat_api_normal_failAudit db m so fresh llm _ _ _ _ rfl rfl rfl rfl hguard
        exact rolesOK_update db _ _ _ hconv hok
          (roles_ok_append_user_assistant _ _ _ (prior_roles_ok db _ hok))
      | noFail =>
        obtain ⟨-, -, -, hconv⟩ :=
          chat_api_normal db m so fresh llm .noFail _ _ _ _ rfl rfl rfl rfl
            (by decide) (by decide) (by decide) hguard
        exact rolesOK_update db _ _ _ hconv hok
          (roles_ok_append_user_assistant _ _ _ (prior_roles_ok db _ hok))
      | atAckAuditWrite =>
        obtain ⟨-, -, -, hconv⟩ :=
          chat_api_normal db m so fresh llm .atAckAuditWrite _ _ _ _ rfl rfl rfl rfl
            (by decide) (by decide) (by decide) hguard
        exact rolesOK_update db _ _ _ hconv hok
          (roles_ok_append_user_assistant _ _ _ (prior_roles_ok db _ hok))

theorem rolesOK_runSteps (steps : List StepInput) : ∀ db : DB, rolesOK db →
    rolesOK (runSteps db steps) := by
  induction steps with
  | nil => intro db h; exact h
  | cons s rest ih =>
    intro db h
    rw [runSteps_cons]
    exact ih _ (rolesOK_step db s.body s.freshId s.llm s.fail h)

theorem rolesOK_empty : rolesOK DB.empty := by
  intro sid h hsome
  exact absurd hsome (by simp [DB.empty])

/-! ## Claims -/

/-- C1: with a parsed body and no persistence failure, the Classification
Client is bypassed if and only if the message — stripped and lowercased —
is one of "ok"/"okay"/"thanks" AND the session's persisted history is
empty, i.e. this is the session's first user turn (in pipeline-reachable
states an assistant turn can only follow a user turn, so an empty history
is exactly "no prior user turn"); and whenever it is bypassed, the JSON
decision returned is topic=OTHERS, status=no_response, response="". -/
theorem short_circuit_iff_first_ack (db : DB) (m : String) (so : Option String)
    (fresh : String) (llm : LLMCall) :
    (invokedLLM (chat_api db (.fields (some m) so) fresh llm .noFail).events = false ↔
      (ACKS.contains (pyLower (pyStrip m)) = true ∧
        priorHistory db (resolveSid so fresh) = [])) ∧
    ((ACKS.contains (pyLower (pyStrip m)) = true ∧
        priorHistory db (resolveSid so fresh) = []) →
      (chat_api db (.fields (some m) so) fresh llm .noFail).response = .json ackJson) := by
  by_cases hcond : ACKS.contains (pyLower (pyStrip m)) = true ∧
      priorHistory db (resolveSid so fresh) = []
  · obtain ⟨hresp, hev, -, -⟩ :=
      chat_api_sc db (some m) so fresh llm .noFail _ _ rfl rfl (by decide) (by decide)
        hcond.1 hcond.2
    refine ⟨⟨fun _ => hcond, fun _ => ?_⟩, fun _ => hresp⟩
    rw [hev]; rfl
  · obtain ⟨hresp, hev, -, -⟩ :=
      chat_api_normal db (some m) so fresh llm .noFail _ _ _ _ rfl rfl rfl rfl
        (by decide) (by decide) (by decide) hcond
    refine ⟨⟨fun hinv => ?_, fun hp => absurd hp hcond⟩, fun hp => absurd hp hcond⟩
    rw [hev] at hinv
    simp [invokedLLM] at hinv

/-- C1 witness: a fresh session whose first message is "ok" is short
circuited to the generic-acknowledgement decision. -/
theorem short_circuit_iff_first_ack_witness :
    (chat_api DB.empty (.fields (some "ok") (some "s")) "f" .transportError .noFail).response
      = .json ackJson :=
  (short_circuit_iff_first_ack DB.empty "ok" (some "s") "f" .transportError).2
    ⟨by decide, rfl⟩

/-- C2: `get_llm_classification` is a total function of the call outcome
(no exception escapes its boundary), and on every failing outcome —
transport/API error, configuration error, empty backend output,
unparseable output, or schema-validation failure — it returns the
fully-populated system_error fallback: topic=OTHERS, status=ESCALATE,
confidence=0, the fixed escalation message, and a justification naming the
failure class; moreover a parsed reply with confidence outside [0,1] or
topic/status outside their closed sets always counts as a failing
outcome. -/
theorem llm_fallback_on_failure :
    (∀ call : LLMCall, llmCallFails call = true →
      (get_llm_classification call).topic = .OTHERS ∧
      (get_llm_classification call).status = .ESCALATE ∧
      (get_llm_classification call).confidence = 0 ∧
      (get_llm_classification call).response_message = systemErrorMessage ∧
      ((get_llm_classification call).justification =
          "System error fallback due to output parse/config failure." ∨
        (get_llm_classification call).justification =
          "System error fallback due to API/network error.")) ∧
    (∀ r : RawOutput, (r.confidence < 0 ∨ 1 < r.confidence ∨
        parseTopic r.topic = none ∨ parseStatus r.status = none) →
      llmCallFails (.response (.parsed r)) = true) := by
  constructor
  · intro call hfail
    cases call with
    | transportError => exact ⟨rfl, rfl, rfl, rfl, Or.inr rfl⟩
    | configError => exact ⟨rfl, rfl, rfl, rfl, Or.inl rfl⟩
    | response t =>
      cases t with
      | empty => exact ⟨rfl, rfl, rfl, rfl, Or.inl rfl⟩
      | unparseable => exact ⟨rfl, rfl, rfl, rfl, Or.inl rfl⟩
      | parsed r =>
        have hv : validateOutput r = none := by
          unfold llmCallFails at hfail
          exact Option.isNone_iff_eq_none.mp hfail
        simp only [get_llm_classification, hv]
        exact ⟨rfl, rfl, rfl, rfl, Or.inl rfl⟩
  · intro r hbad
    cases ht : parseTopic r.topic with
    | none => simp [llmCallFails, validateOutput, ht]
    | some tc =>
      cases hs : parseStatus r.status with
      | none => simp [llmCallFails, validateOutput, ht, hs]
      | some st =>
        rcases hbad with hc | hc | hc | hc
        · have hcond : ¬(0 ≤ r.confidence ∧ r.confidence ≤ 1) :=
            fun h => absurd h.1 (not_le.mpr hc)
          simp [llmCallFails, validateOutput, ht, hs, hcond]
        · have hcond : ¬(0 ≤ r.confidence ∧ r.confidence ≤ 1) :=
            fun h => absurd h.2 (not_le.mpr hc)
          simp [llmCallFails, validateOutput, ht, hs, hcond]
        · rw [ht] at hc; exact absurd hc (by simp)
        · rw [hs] at hc; exact absurd hc (by simp)

/-- C2 witness: a transport error yields the ESCALATE fallback, and a
parsed reply with confidence 2 fails validation. -/
theorem llm_fallback_on_failure_witness :
    ((get_llm_classification .transportError).status = Status.ESCALATE ∧
      (get_llm_classification .transportError).response_message = systemErrorMessage) ∧
    llmCallFails (.response (.parsed ⟨"LAB", "classified", "", 2, "j"⟩)) = true :=
  ⟨⟨(llm_fallback_on_failure.1 .transportError rfl).2.1,
    (llm_fallback_on_failure.1 .transportError rfl).2.2.2.1⟩,
   llm_fallback_on_failure.2 ⟨"LAB", "classified", "", 2, "j"⟩
     (Or.inr (Or.inl (by norm_num)))⟩

/-- C3: starting from an empty store, after any sequence of successfully
processed cycles every session has exactly one ClassificationResult row
per user turn in its history (short-circuited and fallback outcomes
included), and after ANY sequence of cycles — persistence failures and
malformed requests included — the ClassificationResult count for a session
never exceeds the number of user-role turns in its history. -/
theorem audit_records_match_user_turns :
    (∀ steps : List StepInput, (∀ s ∈ steps, goodStep s = true) →
      ∀ sid, resultCount (runSteps DB.empty steps) sid
        = userTurnCount (runSteps DB.empty steps) sid) ∧
    ∀ (steps : List StepInput) (sid : String),
      resultCount (runSteps DB.empty steps) sid
        ≤ userTurnCount (runSteps DB.empty steps) sid :=
  ⟨fun steps h sid => counts_runSteps_eq steps DB.empty sid h rfl,
   fun steps sid => counts_runSteps_le steps DB.empty sid (Nat.le_refl 0)⟩

/-- C3 witness: one short-circuited cycle and one fallback-classified cycle
give each session exactly one audit row per user turn. -/
theorem audit_records_match_user_turns_witness :
    resultCount (runSteps DB.empty
        [⟨.fields (some "ok") (some "s"), "f1", .transportError, .noFail⟩,
         ⟨.fields (some "hello") (some "s"), "f2", .transportError, .noFail⟩]) "s"
      = userTurnCount (runSteps DB.empty
        [⟨.fields (some "ok") (some "s"), "f1", .transportError, .noFail⟩,
         ⟨.fields (some "hello") (some "s"), "f2", .transportError, .noFail⟩]) "s" :=
  audit_records_match_user_turns.1
    [⟨.fields (some "ok") (some "s"), "f1", .transportError, .noFail⟩,
     ⟨.fields (some "hello") (some "s"), "f2", .transportError, .noFail⟩]
    (by decide) "s"

/-- C4 counterexample: the short-circuited request with first message "ok"
is successfully processed (a 200 JSON decision), yet its JSON object has
only the keys topic, status, response — `session_id` is absent, refuting
the claim that every successfully processed request carries all four
fields. -/
theorem response_keys_counterexample :
    (chat_api DB.empty (.fields (some "ok") (some "s")) "f" .transportError .noFail).response
      = .json ackJson ∧
    ¬("session_id" ∈ responseKeys
      (chat_api DB.empty (.fields (some "ok") (some "s")) "f" .transportError .noFail).response) := by
  constructor
  · decide
  · decide

/-- C4 (amended): every successfully processed non-short-circuited request
(classified or fallback) returns a JSON object with exactly the keys
topic, status, session_id, response; a short-circuited request returns
only topic, status, response — the session_id key is omitted on that
path. -/
theorem response_keys_by_path (db : DB) (m so : Option String) (fresh : String)
    (llm : LLMCall) :
    (¬(ACKS.contains (pyLower (pyStrip (m.getD ""))) = true ∧
        priorHistory db (resolveSid so fresh) = []) →
      responseKeys (chat_api db (.fields m so) fresh llm .noFail).response
        = ["topic", "status", "session_id", "response"]) ∧
    ((ACKS.contains (pyLower (pyStrip (m.getD ""))) = true ∧
        priorHistory db (resolveSid so fresh) = []) →
      responseKeys (chat_api db (.fields m so) fresh llm .noFail).response
        = ["topic", "status", "response"]) := by
  constructor
  · intro hguard
    obtain ⟨hresp, -, -, -⟩ :=
      chat_api_normal db m so fresh llm .noFail _ _ _ _ rfl rfl rfl rfl
        (by decide) (by decide) (by decide) hguard
    rw [hresp]; rfl
  · intro hcond
    obtain ⟨hresp, -, -, -⟩ :=
      chat_api_sc db m so fresh llm .noFail _ _ rfl rfl (by decide) (by decide)
        hcond.1 hcond.2
    rw [hresp]; rfl

/-- C4 witness: a non-short-circuited fallback cycle returns all four
keys; a short-circuited cycle returns three. -/
theorem response_keys_by_path_witness :
    responseKeys (chat_api DB.empty (.fields (some "hello") (some "s")) "f"
        .transportError .noFail).response
      = ["topic", "status", "session_id", "response"] ∧
    responseKeys (chat_api DB.empty (.fields (some "okay") (some "s2")) "f"
        .transportError .noFail).response
      = ["topic", "status", "response"] :=
  ⟨(response_keys_by_path DB.empty (some "hello") (some "s") "f" .transportError).1
     (by decide),
   (response_keys_by_path DB.empty (some "okay") (some "s2") "f" .transportError).2
     ⟨by decide, rfl⟩⟩

/-- C5 counterexample: the short-circuited NO_RESPONSE decision for a first
message "ok" surfaces response "" to the caller, but the audit row it
writes records response_message "NO_RESPONSE_ACK" — not the empty string —
refuting the claim that NO_RESPONSE audit rows carry an empty
response_message matching the surfaced response. -/
theorem no_response_audit_counterexample :
    (chat_api DB.empty (.fields (some "ok") (some "s")) "f" .transportError .noFail).response
      = .json [("topic", "OTHERS"), ("status", "no_response"), ("response", "")] ∧
    (chat_api DB.empty (.fields (some "ok") (some "s")) "f" .transportError .noFail).db.results
      = [⟨"s", "OTHERS", "no_response", "NO_RESPONSE_ACK"⟩] ∧
    ("NO_RESPONSE_ACK" : String) ≠ "" := by
  refine ⟨?_, ?_, ?_⟩
  · decide
  · decide
  · decide

/-- C5 (amended): a short-circuited NO_RESPONSE decision surfaces response
"" to the caller while its audit row records the fixed marker
"NO_RESPONSE_ACK"; for every non-short-circuited decision the audit row's
response_message is exactly the response surfaced to the caller. -/
theorem no_response_audit_marker (db : DB) (m so : Option String) (fresh : String)
    (llm : LLMCall) :
    ((ACKS.contains (pyLower (pyStrip (m.getD ""))) = true ∧
        priorHistory db (resolveSid so fresh) = []) →
      (chat_api db (.fields m so) fresh llm .noFail).response = .json ackJson ∧
      (chat_api db (.fields m so) fresh llm .noFail).db.results =
        db.results ++ [⟨resolveSid so fresh, "OTHERS", genericAckStatus, "NO_RESPONSE_ACK"⟩]) ∧
    (¬(ACKS.contains (pyLower (pyStrip (m.getD ""))) = true ∧
        priorHistory db (resolveSid so fresh) = []) →
      (chat_api db (.fields m so) fresh llm .noFail).response =
        .json [("topic", (get_llm_classification llm).topic.value),
               ("status", (get_llm_classification llm).status.value),
               ("session_id", resolveSid so fresh),
               ("response", (get_llm_classification llm).response_message)] ∧
      (chat_api db (.fields m so) fresh llm .noFail).db.results =
        db.results ++ [⟨resolveSid so fresh, (get_llm_classification llm).topic.value,
          (get_llm_classification llm).status.value,
          (get_llm_classification llm).response_message⟩]) := by
  constructor
  · intro hcond
    obtain ⟨hresp, -, hres, -⟩ :=
      chat_api_sc db m so fresh llm .noFail _ _ rfl rfl (by decide) (by decide)
        hcond.1 hcond.2
    exact ⟨hresp, hres⟩
  · intro hguard
    obtain ⟨hresp, -, hres, -⟩ :=
      chat_api_normal db m so fresh llm .noFail _ _ _ _ rfl rfl rfl rfl
        (by decide) (by decide) (by decide) hguard
    exact ⟨hresp, hres⟩

/-- C5 witness: the NO_RESPONSE_ACK marker row written for a first "ok". -/
theorem no_response_audit_marker_witness :
    (chat_api DB.empty (.fields (some "ok") (some "w5")) "f" .transportError .noFail).db.results
      = [⟨"w5", "OTHERS", genericAckStatus, "NO_RESPONSE_ACK"⟩] :=
  ((no_response_audit_marker DB.empty (some "ok") (some "w5") "f" .transportError).1
    ⟨by decide, rfl⟩).2

/-- C6 counterexample: a non-short-circuited cycle whose validated decision
has an empty response_message still appends an assistant turn (with empty
content) to the history, refuting the claim that an empty response_message
leaves the history without a new assistant turn. -/
theorem empty_response_appends_assistant_counterexample :
    (get_llm_classification
        (.response (.parsed ⟨"LAB", "classified", "", 1, "j"⟩))).response_message = "" ∧
    (chat_api DB.empty (.fields (some "hello") (some "s")) "f"
        (.response (.parsed ⟨"LAB", "classified", "", 1, "j"⟩)) .noFail).db.conversations "s"
      = some [⟨"user", "hello"⟩, ⟨"assistant", ""⟩] := by
  constructor
  · decide
  · decide

/-- C6 (amended): in every non-short-circuited successful cycle an
assistant turn is appended unconditionally, with content equal to the
decision's response_message (possibly empty), and exactly one audit row is
written; the history never gains more than this one assistant turn per
cycle. -/
theorem assistant_turn_always_appended (db : DB) (m so : Option String)
    (fresh : String) (llm : LLMCall)
    (hguard : ¬(ACKS.contains (pyLower (pyStrip (m.getD ""))) = true ∧
      priorHistory db (resolveSid so fresh) = [])) :
    (chat_api db (.fields m so) fresh llm .noFail).db.conversations (resolveSid so fresh)
      = some (priorHistory db (resolveSid so fresh) ++
          [⟨"user", pyStrip (m.getD "")⟩,
           ⟨"assistant", (get_llm_classification llm).response_message⟩]) ∧
    (chat_api db (.fields m so) fresh llm .noFail).db.results
      = db.results ++ [⟨resolveSid so fresh, (get_llm_classification llm).topic.value,
          (get_llm_classification llm).status.value,
          (get_llm_classification llm).response_message⟩] := by
  obtain ⟨-, -, hres, hconv⟩ :=
    chat_api_normal db m so fresh llm .noFail _ _ _ _ rfl rfl rfl rfl
      (by decide) (by decide) (by decide) hguard
  refine ⟨?_, hres⟩
  rw [hconv (resolveSid so fresh), if_pos rfl]

/-- C6 witness: the fallback cycle for "hello" appends the assistant turn
carrying the escalation message and writes one audit row. -/
theorem assistant_turn_always_appended_witness :
    (chat_api DB.empty (.fields (some "hello") (some "w6")) "f"
        .transportError .noFail).db.conversations "w6"
      = some [⟨"user", "hello"⟩, ⟨"assistant", systemErrorMessage⟩] :=
  (assistant_turn_always_appended DB.empty (some "hello") (some "w6") "f" .transportError
    (by decide)).1

/-- C7 counterexample: a parseable request body with no message field is
not rejected — the pipeline treats the message as empty, creates the
session, appends a user turn with empty content and an assistant turn, and
returns a 200 JSON decision, refuting the claim that a missing message
field is reported as an error with no Session mutation. -/
theorem missing_message_counterexample :
    (chat_api DB.empty (.fields none (some "s")) "f" .transportError .noFail).db.conversations "s"
      = some [⟨"user", ""⟩, ⟨"assistant", systemErrorMessage⟩] ∧
    (chat_api DB.empty (.fields none (some "s")) "f" .transportError .noFail).response
      = .json [("topic", "OTHERS"), ("status", "escalate"), ("session_id", "s"),
               ("response", systemErrorMessage)] := by
  constructor
  · decide
  · decide

/-- C7 (amended): an unparseable JSON body is reported immediately as a 400
error with no store mutation and no side effects; a parseable body with
the message field absent is NOT an error — `data.get('message', '')`
defaults it to the empty string and the cycle proceeds as a normal
(non-short-circuited) classification cycle, mutating the session. -/
theorem input_error_handling (db : DB) (fresh : String) (llm : LLMCall)
    (fail : FailPoint) (so : Option String) :
    ((chat_api db .malformed fresh llm fail).db = db ∧
     (chat_api db .malformed fresh llm fail).response
        = .error "Invalid JSON in request body" 400 ∧
     (chat_api db .malformed fresh llm fail).events = []) ∧
    ((chat_api db (.fields none so) fresh llm .noFail).db.conversations (resolveSid so fresh)
      = some (priorHistory db (resolveSid so fresh) ++
          [⟨"user", ""⟩, ⟨"assistant", (get_llm_classification llm).response_message⟩])) := by
  constructor
  · exact ⟨rfl, rfl, rfl⟩
  · have hguard : ¬(ACKS.contains (pyLower (pyStrip ((none : Option String).getD ""))) = true ∧
        priorHistory db (resolveSid so fresh) = []) := fun hc => absurd hc.1 (by decide)
    obtain ⟨-, -, -, hconv⟩ :=
      chat_api_normal db none so fresh llm .noFail _ _ _ _ rfl rfl rfl rfl
        (by decide) (by decide) (by decide) hguard
    rw [hconv (resolveSid so fresh), if_pos rfl]
    rfl

/-- C7 witness: a malformed body leaves a concrete store untouched, and an
absent message field mutates the session. -/
theorem input_error_handling_witness :
    (chat_api DB.empty .malformed "f" .transportError .noFail).response
      = .error "Invalid JSON in request body" 400 ∧
    (chat_api DB.empty (.fields none (some "w7")) "f" .transportError .noFail).db.conversations "w7"
      = some [⟨"user", ""⟩, ⟨"assistant", systemErrorMessage⟩] :=
  ⟨(input_error_handling DB.empty "f" .transportError .noFail (some "w7")).1.2.1,
   (input_error_handling DB.empty "f" .transportError .noFail (some "w7")).2⟩

/-- C8 counterexample: with the audit-row write failing (a failure strictly
after the user turn was persisted), the cycle reports a 500 error and
writes no audit row — but the assistant turn HAS been persisted, refuting
the claim that a failure after the user-turn persist point produces no
assistant turn. -/
theorem audit_write_failure_keeps_assistant_counterexample :
    (chat_api DB.empty (.fields (some "hello") (some "s")) "f"
        .transportError .atAuditWrite).response
      = .error "An internal server error occurred" 500 ∧
    (chat_api DB.empty (.fields (some "hello") (some "s")) "f"
        .transportError .atAuditWrite).db.conversations "s"
      = some [⟨"user", "hello"⟩, ⟨"assistant", systemErrorMessage⟩] ∧
    (chat_api DB.empty (.fields (some "hello") (some "s")) "f"
        .transportError .atAuditWrite).db.results = [] := by
  refine ⟨?_, ?_, ?_⟩
  · decide
  · decide
  · decide

/-- C8 (amended): in every cycle the user-turn save is the first observable
effect — any nonempty event trace starts with it, so it precedes the
short-circuit check, any Classification Client invocation and any audit
write; a persistence failure after that point leaves the user turn
persisted and writes no audit row for the cycle, and leaves no assistant
turn when it strikes the short-circuit audit write or the assistant-turn
save — but a failure at the final audit write leaves the already saved
assistant turn persisted as well. -/
theorem user_turn_saved_before_effects (db : DB) (body : RequestBody)
    (fresh : String) (llm : LLMCall) (fail : FailPoint) :
    (∀ e rest, (chat_api db body fresh llm fail).events = e :: rest →
      ∃ sid t, e = Event.userTurnSaved sid t) ∧
    (∀ m so, body = .fields m so → fail ≠ .noFail → fail ≠ .atUserSave →
      (chat_api db body fresh llm fail).response
          = .error "An internal server error occurred" 500 →
      (chat_api db body fresh llm fail).db.results = db.results ∧
      ∃ rest, (chat_api db body fresh llm fail).db.conversations (resolveSid so fresh)
        = some (priorHistory db (resolveSid so fresh) ++
            Turn.mk "user" (pyStrip (m.getD "")) :: rest)) ∧
    (∀ m so, body = .fields m so →
      (fail = .atAckAuditWrite ∨ fail = .atAssistantSave) →
      (chat_api db body fresh llm fail).response
          = .error "An internal server error occurred" 500 →
      ∃ pre, (chat_api db body fresh llm fail).db.conversations (resolveSid so fresh)
        = some (pre ++ [Turn.mk "user" (pyStrip (m.getD ""))])) := by
  refine ⟨?_, ?_, ?_⟩
  · intro e rest heq
    cases body with
    | malformed => rw [chat_api_malformed] at heq; cases heq
    | fields m so =>
      by_cases hguard : ACKS.contains (pyLower (pyStrip (m.getD ""))) = true ∧
          priorHistory db (resolveSid so fresh) = []
      · rcases hguard with ⟨hack, hfirst⟩
        cases fail with
        | atUserSave =>
          obtain ⟨-, hev, -, -⟩ := chat_api_failUserSave db m so fresh llm _ rfl
          rw [hev] at heq; cases heq
        | atAckAuditWrite =>
          obtain ⟨-, hev, -, -⟩ :=
            chat_api_sc_failAudit db m so fresh llm _ _ rfl rfl hack hfirst
          rw [hev] at heq
          injection heq with h1 _
          exact ⟨_, _, h1.symm⟩
        | noFail =>
          obtain ⟨-, hev, -, -⟩ :=
            chat_api_sc db m so fresh llm .noFail _ _ rfl rfl (by decide) (by decide)
              hack hfirst
          rw [hev] at heq
          injection heq with h1 _
          exact ⟨_, _, h1.symm⟩
        | atAssistantSave =>
          obtain ⟨-, hev, -, -⟩ :=
            chat_api_sc db m so fresh llm .atAssistantSave _ _ rfl rfl (by decide)
              (by decide) hack hfirst
          rw [hev] at heq
          injection heq with h1 _
          exact ⟨_, _, h1.symm⟩
        | atAuditWrite =>
          obtain ⟨-, hev, -, -⟩ :=
            chat_api_sc db m so fresh llm .atAuditWrite _ _ rfl rfl (by decide)
              (by decide) hack hfirst
          rw [hev] at heq
          injection heq with h1 _
          exact ⟨_, _, h1.symm⟩
      · cases fail with
        | atUserSave =>
          obtain ⟨-, hev, -, -⟩ := chat_api_failUserSave db m so fresh llm _ rfl
          rw [hev] at heq; cases heq
        | atAssistantSave =>
          obtain ⟨-, hev, -, -⟩ :=
            chat_api_normal_failAssist db m so fresh llm _ _ _ rfl rfl rfl hguard
          rw [hev] at heq
          injection heq with h1 _
          exact ⟨_, _, h1.symm⟩
        | atAuditWrite =>
          obtain ⟨-, hev, -, -⟩ :=
            chat_api_normal_failAudit db m so fresh llm _ _ _ _ rfl rfl rfl rfl hguard
          rw [hev] at heq
          injection heq with h1 _
          exact ⟨_, _, h1.symm⟩
        | noFail =>
          obtain ⟨-, hev, -, -⟩ :=
            chat_api_normal db m so fresh llm .noFail _ _ _ _ rfl rfl rfl rfl
              (by decide) (by decide) (by decide) hguard
          rw [hev] at heq
          injection heq with h1 _
          exact ⟨_, _, h1.symm⟩
        | atAckAuditWrite =>
          obtain ⟨-, hev, -, -⟩ :=
            chat_api_normal db m so fresh llm .atAckAuditWrite _ _ _ _ rfl rfl rfl rfl
              (by decide) (by decide) (by decide) hguard
          rw [hev] at heq
          injection heq with h1 _
          exact ⟨_, _, h1.symm⟩
  · intro m so hbody hnf hus herr
    subst hbody
    by_cases hguard : ACKS.contains (pyLower (pyStrip (m.getD ""))) = true ∧
        priorHistory db (resolveSid so fresh) = []
    · cases fail with
      | noFail => exact absurd rfl hnf
      | atUserSave => exact absurd rfl hus
      | atAckAuditWrite =>
        obtain ⟨-, -, hres, hconv⟩ :=
          chat_api_sc_failAudit db m so fresh llm _ _ rfl rfl hguard.1 hguard.2
        refine ⟨hres, [], ?_⟩
        rw [hconv (resolveSid so fresh), if_pos rfl, hguard.2]
        rfl
      | atAssistantSave =>
        obtain ⟨hresp, -, -, -⟩ :=
          chat_api_sc db m so fresh llm .atAssistantSave _ _ rfl rfl (by decide)
            (by decide) hguard.1 hguard.2
        rw [hresp] at herr; cases herr
      | atAuditWrite =>
        obtain ⟨hresp, -, -, -⟩ :=
          chat_api_sc db m so fresh llm .atAuditWrite _ _ rfl rfl (by decide)
            (by decide) hguard.1 hguard.2
        rw [hresp] at herr; cases herr
    · cases fail with
      | noFail => exact absurd rfl hnf
      | atUserSave => exact absurd rfl hus
      | atAckAuditWrite =>
        obtain ⟨hresp, -, -, -⟩ :=
          chat_api_normal db m so fresh llm .atAckAuditWrite _ _ _ _ rfl rfl rfl rfl
            (by decide) (by decide) (by decide) hguard
        rw [hresp] at herr; cases herr
      | atAssistantSave =>
        obtain ⟨-, -, hres, hconv⟩ :=
          chat_api_normal_failAssist db m so fresh llm _ _ _ rfl rfl rfl hguard
        refine ⟨hres, [], ?_⟩
        rw [hconv (resolveSid so fresh), if_pos rfl]
      | atAuditWrite =>
        obtain ⟨-, -, hres, hconv⟩ :=
          chat_api_normal_failAudit db m so fresh llm _ _ _ _ rfl rfl rfl rfl hguard
        refine ⟨hres, [Turn.mk "assistant" (get_llm_classification llm).response_message], ?_⟩
        rw [hconv (resolveSid so fresh), if_pos rfl]
  · intro m so hbody hf herr
    subst hbody
    by_cases hguard : ACKS.contains (pyLower (pyStrip (m.getD ""))) = true ∧
        priorHistory db (resolveSid so fresh) = []
    · rcases hf with hf | hf
      · subst hf
        obtain ⟨-, -, -, hconv⟩ :=
          chat_api_sc_failAudit db m so fresh llm _ _ rfl rfl hguard.1 hguard.2
        refine ⟨[], ?_⟩
        rw [hconv (resolveSid so fresh), if_pos rfl]
        rfl
      · subst hf
        obtain ⟨hresp, -, -, -⟩ :=
          chat_api_sc db m so fresh llm .atAssistantSave _ _ rfl rfl (by decide)
            (by decide) hguard.1 hguard.2
        rw [hresp] at herr; cases herr
    · rcases hf with hf | hf
      · subst hf
        obtain ⟨hresp, -, -, -⟩ :=
          chat_api_normal db m so fresh llm .atAckAuditWrite _ _ _ _ rfl rfl rfl rfl
            (by decide) (by decide) (by decide) hguard
        rw [hresp] at herr; cases herr
      · subst hf
        obtain ⟨-, -, -, hconv⟩ :=
          chat_api_normal_failAssist db m so fresh llm _ _ _ rfl rfl rfl hguard
        refine ⟨priorHistory db (resolveSid so fresh), ?_⟩
        rw [hconv (resolveSid so fresh), if_pos rfl]

/-- C8 witness: with the assistant-turn save failing after the user turn
was persisted, the cycle writes no audit row. -/
theorem user_turn_saved_before_effects_witness :
    (chat_api DB.empty (.fields (some "hi") (some "w8")) "f"
        .transportError .atAssistantSave).db.results = [] :=
  ((user_turn_saved_before_effects DB.empty (.fields (some "hi") (some "w8")) "f"
      .transportError .atAssistantSave).2.1 (some "hi") (some "w8") rfl (by decide)
      (by decide) (by decide)).1

/-- C9: appending N turns to a session through the pipeline's
lookup-or-create / append / save pattern and reading the session back
yields exactly the prior history followed by those N turns, in the same
order, each turn's role and content preserved exactly (append-only: no
in-place edits, no reordering); a previously absent session reads back as
exactly the appended turns. -/
theorem history_round_trip (db : DB) (sid : String) (ts : List Turn) (t : Turn) :
    (∀ h0, db.conversations sid = some h0 →
      (appendTurns db sid ts).conversations sid = some (h0 ++ ts)) ∧
    (db.conversations sid = none →
      (appendTurns db sid (t :: ts)).conversations sid = some (t :: ts)) := by
  constructor
  · intro h0 h
    exact appendTurns_lookup sid ts db h0 h
  · intro h
    have h1 : (appendTurn db sid t).conversations sid = some [t] := by
      rw [appendTurn_lookup]
      unfold priorHistory
      rw [h]
      rfl
    have h2 := appendTurns_lookup sid ts (appendTurn db sid t) [t] h1
    rw [List.singleton_append] at h2
    exact h2

/-- C9 witness: two turns appended to a fresh session read back verbatim. -/
theorem history_round_trip_witness :
    (appendTurns DB.empty "w9"
        [Turn.mk "user" "a", Turn.mk "assistant" "b"]).conversations "w9"
      = some [Turn.mk "user" "a", Turn.mk "assistant" "b"] :=
  (history_round_trip DB.empty "w9" [Turn.mk "assistant" "b"] (Turn.mk "user" "a")).2 rfl

/-- C10: every history entry the pipeline appends has exactly the fields
role and content (the `Turn` shape of the appended dict literals), and its
role is "user" or "assistant": the invariant is preserved by every cycle
whatever its inputs or failures, and from an empty store any sequence of
cycles leaves every entry of every history with role in
\x7b"user", "assistant"\x7d — the pipeline itself never writes
"system-note" or any other role. -/
theorem pipeline_roles_closed :
    (∀ (db : DB) (body : RequestBody) (fresh : String) (llm : LLMCall) (fail : FailPoint),
      rolesOK db → rolesOK (chat_api db body fresh llm fail).db) ∧
    ∀ steps : List StepInput, rolesOK (runSteps DB.empty steps) :=
  ⟨fun db body fresh llm fail h => rolesOK_step db body fresh llm fail h,
   fun steps => rolesOK_runSteps steps DB.empty rolesOK_empty⟩

/-- C10 witness: the assistant turn written by a concrete fallback cycle
has an allowed role. -/
theorem pipeline_roles_closed_witness :
    (Turn.mk "assistant" systemErrorMessage).role = "user" ∨
      (Turn.mk "assistant" systemErrorMessage).role = "assistant" :=
  pipeline_roles_closed.2
    [⟨.fields (some "hello") (some "w10"), "f", .transportError, .noFail⟩] "w10"
    [Turn.mk "user" "hello", Turn.mk "assistant" systemErrorMessage] (by decide)
    (Turn.mk "assistant" systemErrorMessage) (by decide)

end TwinHealth
